import Mathlib

/-!
Verification development for the public-class-builder repository.

The repository holds two near-identical modules:
  * `src/Utility.js` — a process-wide façade compiler (`getPublicClass`) whose
    four registry maps live in a module closure (WeakMaps);
  * `src/PublicClassBuilder.js` — a builder class holding the same four maps
    per builder instance (plain Maps), with the compile step split into
    `buildPublicClass` and `PublicClassBuilder#getPublicClass`.

The shallow embedding below models JavaScript values as an inductive `JSVal`
(object identity via numeric ids, class membership via a class-id tag on each
object reference), the four registry maps as association lists over those ids,
property descriptors as the flat record returned by
`Reflect.getOwnPropertyDescriptor`, and the synthesized façade members as
first-order data (`SynthDesc`) interpreted by per-variant run functions that
carry the registry state at invocation time — mirroring the source, where the
synthesized closures capture the descriptor snapshot but read the live maps.

Host built-ins outside the program (e.g. `Object.prototype.__proto__`,
`Function.prototype` members, weak vs strong map retention, the JS garbage
collector) are not modelled; no theorem below depends on them.
-/

/-- JavaScript runtime values as the program manipulates them.  Object
identity is a numeric id; `objRef id cls` is an ordinary object that is an
instance of the class with id `cls` (`instanceof` is modelled as a direct
class-tag check, adequate because the program creates no subclass chains);
`classRef id` is a class (a function value); `arr` is an array (identity not
modelled: the program never registers an array in any map); `promiseVal r`
is a promise that will fulfill with `r` (rejection is not needed by any
settled claim). -/
inductive JSVal where
  | undef : JSVal
  | boolean (b : Bool) : JSVal
  | num (n : Int) : JSVal
  | str (s : String) : JSVal
  | objRef (id : Nat) (cls : Nat) : JSVal
  | classRef (id : Nat) : JSVal
  | arr (elems : List JSVal) : JSVal
  | promiseVal (result : JSVal) : JSVal

/-- The JavaScript `typeof` operator on the modelled values.  Note that a
promise is an ordinary object: `typeof somePromise` is `"object"`, never
`"promise"`. -/
def jsTypeof : JSVal → String
  | JSVal.undef => "undefined"
  | JSVal.boolean _ => "boolean"
  | JSVal.num _ => "number"
  | JSVal.str _ => "string"
  | JSVal.objRef _ _ => "object"
  | JSVal.classRef _ => "function"
  | JSVal.arr _ => "object"
  | JSVal.promiseVal _ => "object"

/-- A property key as produced by `Reflect.ownKeys`: a string or a symbol. -/
inductive PropKey where
  | str (s : String)
  | sym (id : Nat)
deriving DecidableEq

/-- The `value` slot of a data property descriptor: either a plain value or a
function (the two cases the compiler distinguishes with
`typeof privateProperty.value === 'function'`).  A function takes its `this`
receiver and an argument list. -/
inductive DescValue where
  | jsval (v : JSVal)
  | func (f : JSVal → List JSVal → JSVal)

/-- A property descriptor as returned by `Reflect.getOwnPropertyDescriptor`.
Getters take the receiver; setters take the receiver and the value (their
return value is ignored by JS, kept for observability). -/
structure PropDescriptor where
  configurable : Bool := false
  enumerable : Bool := false
  writable : Bool := false
  value : Option DescValue := none
  get : Option (JSVal → JSVal) := none
  set : Option (JSVal → JSVal → JSVal) := none

/-- An implementation ("private") class: its identity and its own static and
prototype property tables, in `Reflect.ownKeys` order.  (Both source files
guard compilation with `typeof PrivateClass !== 'function' ||
!PrivateClass.prototype`; an `ImplClass` models exactly a value passing that
guard, so the `NotAClass` error path precedes this model.) -/
structure ImplClass where
  id : Nat
  staticProps : List (PropKey × PropDescriptor)
  protoProps : List (PropKey × PropDescriptor)

/-- The errors the two modules can raise. `typeError` is the host's rejection
of an invalid property descriptor passed to `Object.defineProperty`;
`referenceError` is the host's response to an unresolved identifier. -/
inductive JSError where
  | notAClass
  | alreadyBound
  | unrelatedInstance
  | typeError
  | referenceError
deriving DecidableEq

/-- A synthesized façade getter: either it wraps the private getter, or (for a
plain non-function value) it closes over the `value` slot of the descriptor
snapshot captured at compilation time (`privateProperty.value` in the
source). -/
inductive SynthGet where
  | fromGetter (g : JSVal → JSVal)
  | fromValue (captured : Option DescValue)

/-- A synthesized façade setter wrapping the private setter. -/
inductive SynthSet where
  | fromSetter (s : JSVal → JSVal → JSVal)

/-- A synthesized façade method wrapping the private function. -/
inductive SynthMethod where
  | fromFunc (f : JSVal → List JSVal → JSVal)

/-- The descriptor the compiler builds for one façade property
(`publicProperty` / `publicProtoProperty` in the source).  Attributes default
to `false`/absent exactly as a JS property descriptor literal does.  The
closure bodies are interpreted by the per-variant run functions below, which
receive the registry at call time (the source closures read the live maps). -/
structure SynthDesc where
  configurable : Bool := false
  enumerable : Bool := false
  writable : Bool := false
  get : Option SynthGet := none
  set : Option SynthSet := none
  value : Option SynthMethod := none

/-- A synthesized façade class: its identity, the id of its implementation
class, and the transferred static and prototype property tables.  Besides the
transferred properties, the class declaration itself owns the static members
`length`, `name`, `prototype` and the synthesized `_get`, and its prototype
owns `constructor` (see `facadeOwnStaticKeys` / `facadeOwnProtoKeys`). -/
structure Facade where
  id : Nat
  implId : Nat
  staticProps : List (String × SynthDesc)
  protoProps : List (String × SynthDesc)

instance : Inhabited Facade := ⟨⟨0, 0, [], []⟩⟩

/-- The four registry maps plus an allocator for fresh object/class ids.
The same shape serves both variants: in `Utility.js` these are the module
closure's WeakMaps, in `PublicClassBuilder.js` the `_private` Maps of one
builder (retention policy is not modelled). -/
structure Registry where
  publicClassesMap : List (Nat × Nat)
  privateClassesMap : List (Nat × Facade)
  publicInstancesMap : List (Nat × JSVal)
  privateInstancesMap : List (Nat × JSVal)
  nextId : Nat

/-- The id under which a value can be a (Weak)Map key: ordinary objects and
classes have identity; primitives do not (`WeakMap.has` on them is `false`).
Arrays and promises are objects too, but the program never stores one in a
registry map, and the tree model gives them no identity. -/
def weakKey : JSVal → Option Nat
  | JSVal.objRef id _ => some id
  | JSVal.classRef id => some id
  | _ => none

/-- The id of an object reference (used only where the value is known to be
an `objRef`). -/
def objId : JSVal → Nat
  | JSVal.objRef id _ => id
  | JSVal.classRef id => id
  | _ => 0

/-- `v instanceof C` for the modelled classes: a direct class-tag check. -/
def isInstanceOf (v : JSVal) (clsId : Nat) : Bool :=
  match v with
  | JSVal.objRef _ c => c == clsId
  | _ => false

/-- First string-keyed property named `k` in a property table (what
`Reflect.getOwnPropertyDescriptor` returns for `k` when `k` occurs in
`Reflect.ownKeys`, whose keys are unique in JS). -/
def lookupPropStr : List (PropKey × PropDescriptor) → String → Option PropDescriptor
  | [], _ => none
  | (PropKey.str k', d) :: rest, k => if k' = k then some d else lookupPropStr rest k
  | (PropKey.sym _, _) :: rest, k => lookupPropStr rest k

/-- Is the descriptor's `value` slot a function
(`typeof privateProperty.value === 'function'`)? -/
def isFuncValue : Option DescValue → Bool
  | some (DescValue.func _) => true
  | _ => false

/-- The plain value held in a captured `value` slot (absent slot reads as
`undefined`; the function case never reaches a value-snapshot getter because
the compiler routes functions to the method branch). -/
def descJS : Option DescValue → JSVal
  | some (DescValue.jsval v) => v
  | _ => JSVal.undef

/-- Synthesize the façade property descriptor for one private descriptor:
steps 2.3–2.4 (and identically 3.3–3.4) of both source files.  Shared between
the two variants because the synthesized data is identical; only the filters
the closures call differ, which the per-variant run functions supply. -/
def synthDesc (d : PropDescriptor) : SynthDesc :=
  let base : SynthDesc := { configurable := d.configurable, enumerable := d.enumerable }
  if d.get.isSome || d.set.isSome then
    { base with get := d.get.map SynthGet.fromGetter, set := d.set.map SynthSet.fromSetter }
  else
    let base2 := { base with writable := d.writable }
    match d.value with
    | some (DescValue.func f) => { base2 with value := some (SynthMethod.fromFunc f) }
    | other => { base2 with get := some (SynthGet.fromValue other) }

/-- `Object.defineProperty` validity: a descriptor that specifies a getter or
setter together with `value` or `writable` is rejected with a `TypeError`. -/
def validDesc (sd : SynthDesc) : Bool :=
  !((sd.get.isSome || sd.set.isSome) && (sd.value.isSome || sd.writable))

/-- `key.startsWith('_')` — the internal-marker test.  The marker is the
single character `_`, so starting with it is exactly having it as the first
character. -/
def startsWithUnderscore (k : String) : Bool := k.data.head? == some '_'

/-- Keys skipped by the static transfer loop (step 2.1 of both files). -/
def skipStaticKey (k : String) : Bool := startsWithUnderscore k || k == "prototype"

/-- Keys skipped by the prototype transfer loop (step 3.1 of both files). -/
def skipProtoKey (k : String) : Bool := startsWithUnderscore k || k == "constructor"

/-- One transfer loop of the compiler: walk the property table in order,
skip symbol keys and `skip`ped names, synthesize each remaining descriptor and
define it on the façade; the first invalid descriptor aborts compilation with
the host's `TypeError`. -/
def transferProps (skip : String → Bool) :
    List (PropKey × PropDescriptor) → Except JSError (List (String × SynthDesc))
  | [] => Except.ok []
  | (PropKey.sym _, _) :: rest => transferProps skip rest
  | (PropKey.str k, d) :: rest =>
    if skip k then transferProps skip rest
    else if validDesc (synthDesc d) then
      match transferProps skip rest with
      | Except.ok l => Except.ok ((k, synthDesc d) :: l)
      | Except.error e => Except.error e
    else Except.error JSError.typeError

/-- Own member names of the synthesized façade class at the type (static)
level: the class declaration itself contributes `length`, `name`, `prototype`
and the synthesized static `_get`, and the transfer loop adds the transferred
keys. -/
def facadeOwnStaticKeys (fc : Facade) : List String :=
  ["length", "name", "prototype", "_get"] ++ fc.staticProps.map Prod.fst

/-- Own member names of the synthesized façade class at the instance
(prototype) level: the class declaration contributes `constructor`, and the
transfer loop adds the transferred keys. -/
def facadeOwnProtoKeys (fc : Facade) : List String :=
  ["constructor"] ++ fc.protoProps.map Prod.fst

/-- Spread a translated argument array back into an argument list
(`.apply(receiver, privatArgs)`); the filters always map an array to an
array, so the fallback case is unreachable. -/
def argListOf : JSVal → List JSVal
  | JSVal.arr es => es
  | v => [v]

/-- The private instance bound to a façade receiver
(`publicInstancesMap.get(this)` guarded by `publicInstancesMap.has(this)`),
if any; shared by both variants, whose guard code is identical. -/
def boundPrivate (st : Registry) (thisV : JSVal) : Option JSVal :=
  match weakKey thisV with
  | some k => List.lookup k st.publicInstancesMap
  | none => none

namespace Utility

mutual

/-- `filterPublicInstance` of `src/Utility.js` (public→private translation):
a registered façade instance becomes its private counterpart; an array is
mapped element-wise; the promise branch tests `typeof obj === 'promise'`,
which is never true, so it is kept verbatim; everything else passes through.
`Utility.js` filters consult only the instance maps. -/
def filterPublicInstance (st : Registry) : JSVal → JSVal
  | JSVal.objRef id cls =>
    match List.lookup id st.publicInstancesMap with
    | some priv => priv
    | none => JSVal.objRef id cls
  | JSVal.classRef id =>
    match List.lookup id st.publicInstancesMap with
    | some priv => priv
    | none => JSVal.classRef id
  | JSVal.arr elems => JSVal.arr (filterPublicInstanceList st elems)
  | JSVal.promiseVal r =>
    if jsTypeof (JSVal.promiseVal r) = "promise"
    then JSVal.promiseVal (filterPublicInstance st r)
    else JSVal.promiseVal r
  | v => v

/-- Element-wise translation of an array (`obj.map(filterPublicInstance)`). -/
def filterPublicInstanceList (st : Registry) : List JSVal → List JSVal
  | [] => []
  | e :: es => filterPublicInstance st e :: filterPublicInstanceList st es

end

mutual

/-- `filterPrivateInstance` of `src/Utility.js` (private→public translation),
symmetric to `filterPublicInstance` over `privateInstancesMap`. -/
def filterPrivateInstance (st : Registry) : JSVal → JSVal
  | JSVal.objRef id cls =>
    match List.lookup id st.privateInstancesMap with
    | some pub => pub
    | none => JSVal.objRef id cls
  | JSVal.classRef id =>
    match List.lookup id st.privateInstancesMap with
    | some pub => pub
    | none => JSVal.classRef id
  | JSVal.arr elems => JSVal.arr (filterPrivateInstanceList st elems)
  | JSVal.promiseVal r =>
    if jsTypeof (JSVal.promiseVal r) = "promise"
    then JSVal.promiseVal (filterPrivateInstance st r)
    else JSVal.promiseVal r
  | v => v

/-- Element-wise translation of an array (`obj.map(filterPrivateInstance)`). -/
def filterPrivateInstanceList (st : Registry) : List JSVal → List JSVal
  | [] => []
  | e :: es => filterPrivateInstance st e :: filterPrivateInstanceList st es

end

/-- `getPublicClass` of `src/Utility.js`, lines 41–208: cache check against
`privateClassesMap`, then the two transfer loops, then registration of the
class pair in both class-level maps before returning. -/
def getPublicClass (st : Registry) (impl : ImplClass) :
    Except JSError (Facade × Registry) :=
  match List.lookup impl.id st.privateClassesMap with
  | some fc => Except.ok (fc, st)
  | none =>
    match transferProps skipStaticKey impl.staticProps with
    | Except.error e => Except.error e
    | Except.ok sProps =>
      match transferProps skipProtoKey impl.protoProps with
      | Except.error e => Except.error e
      | Except.ok pProps =>
        let fc : Facade :=
          { id := st.nextId, implId := impl.id, staticProps := sProps, protoProps := pProps }
        Except.ok (fc,
          { st with
            nextId := st.nextId + 1,
            privateClassesMap := (impl.id, fc) :: st.privateClassesMap,
            publicClassesMap := (fc.id, impl.id) :: st.publicClassesMap })

/-- `PublicClass#constructor` of `src/Utility.js`, lines 51–69.  Wrap form:
if the first argument is an instance of the private class, fail with the
`AlreadyBound` error when it is already registered, else bind it.  Construct
form: translate the argument array public→private and run the private
constructor (its body is the author's and is not modelled: it yields a fresh
private instance; the translated arguments are not observed by any claim).
Either way both instance maps are updated before the constructor returns. -/
def publicConstructor (st : Registry) (impl : ImplClass) (fc : Facade)
    (publicArgs : List JSVal) : Except JSError (JSVal × Registry) :=
  let arg0 := publicArgs.headD JSVal.undef
  if isInstanceOf arg0 impl.id then
    let pid := objId arg0
    if (List.lookup pid st.privateInstancesMap).isSome then
      Except.error JSError.alreadyBound
    else
      let thisV := JSVal.objRef st.nextId fc.id
      Except.ok (thisV,
        { st with
          nextId := st.nextId + 1,
          publicInstancesMap := (st.nextId, arg0) :: st.publicInstancesMap,
          privateInstancesMap := (pid, thisV) :: st.privateInstancesMap })
  else
    let _privatArgs := filterPublicInstance st (JSVal.arr publicArgs)
    let privV := JSVal.objRef st.nextId impl.id
    let thisV := JSVal.objRef (st.nextId + 1) fc.id
    Except.ok (thisV,
      { st with
        nextId := st.nextId + 2,
        publicInstancesMap := (st.nextId + 1, privV) :: st.publicInstancesMap,
        privateInstancesMap := (st.nextId, thisV) :: st.privateInstancesMap })

/-- `PublicClass._get` of `src/Utility.js`, lines 71–78: a registered private
instance yields its registered façade instance; otherwise
`privateInstance instanceof publicClassesMap.get(PublicClass)` decides
between wrapping on demand (`new PublicClass(privateInstance)`) and the
`UnrelatedInstance` error.  If the class pair were not in `publicClassesMap`
the `instanceof` right-hand side would be `undefined` and the host would
raise a `TypeError`; `getPublicClass` always registers the pair before the
class escapes, so that branch is unreachable in practice. -/
def staticGet (st : Registry) (impl : ImplClass) (fc : Facade) (v : JSVal) :
    Except JSError (JSVal × Registry) :=
  match weakKey v with
  | some pid =>
    match List.lookup pid st.privateInstancesMap with
    | some pub => Except.ok (pub, st)
    | none =>
      match List.lookup fc.id st.publicClassesMap with
      | some implClsId =>
        if isInstanceOf v implClsId then publicConstructor st impl fc [v]
        else Except.error JSError.unrelatedInstance
      | none => Except.error JSError.typeError
  | none =>
    match List.lookup fc.id st.publicClassesMap with
    | some implClsId =>
      if isInstanceOf v implClsId then publicConstructor st impl fc [v]
      else Except.error JSError.unrelatedInstance
    | none => Except.error JSError.typeError

/-- Body of a synthesized static getter (steps 2.4a.1 and 2.4b.2 of
`src/Utility.js`): invoke the private getter with the private class as
receiver (`privateProperty.get.call(PrivateClass)`) — or read the captured
descriptor's `value` slot — and translate the result private→public. -/
def runStaticGet (st : Registry) (implId : Nat) : SynthGet → JSVal
  | SynthGet.fromGetter g => filterPrivateInstance st (g (JSVal.classRef implId))
  | SynthGet.fromValue cap => filterPrivateInstance st (descJS cap)

/-- Body of a synthesized static setter (step 2.4a.2): translate the incoming
value public→private and invoke the private setter with the private class as
receiver; the returned value is the setter's (ignored) result. -/
def runStaticSet (st : Registry) (implId : Nat) (ss : SynthSet)
    (publicValue : JSVal) : JSVal :=
  match ss with
  | SynthSet.fromSetter s => s (JSVal.classRef implId) (filterPublicInstance st publicValue)

/-- Body of a synthesized static method (step 2.4b.1): translate the argument
array public→private, apply the private function with the **private class**
as receiver (`privateProperty.value.apply(PrivateClass, privatArgs)`), and
translate the result private→public. -/
def runStaticMethod (st : Registry) (implId : Nat) (sm : SynthMethod)
    (publicArgs : List JSVal) : JSVal :=
  match sm with
  | SynthMethod.fromFunc f =>
    let privatArgs := argListOf (filterPublicInstance st (JSVal.arr publicArgs))
    filterPrivateInstance st (f (JSVal.classRef implId) privatArgs)

/-- Body of a synthesized instance getter (steps 3.4a.1 and 3.4b.2): if the
receiver has no bound private instance the call returns `undefined` without
error; otherwise invoke the private getter with the bound private instance as
receiver (or read the captured snapshot) and translate the result. -/
def runProtoGet (st : Registry) (sg : SynthGet) (thisV : JSVal) : JSVal :=
  match boundPrivate st thisV with
  | none => JSVal.undef
  | some priv =>
    match sg with
    | SynthGet.fromGetter g => filterPrivateInstance st (g priv)
    | SynthGet.fromValue cap => filterPrivateInstance st (descJS cap)

/-- Body of a synthesized instance setter (step 3.4a.2): `none` models the
guarded early return on an unbound receiver (the private setter is not
invoked); `some r` models invoking the private setter with the bound private
instance and the translated value, `r` being its (ignored) result. -/
def runProtoSet (st : Registry) (ss : SynthSet) (thisV publicValue : JSVal) :
    Option JSVal :=
  match boundPrivate st thisV with
  | none => none
  | some priv =>
    match ss with
    | SynthSet.fromSetter s => some (s priv (filterPublicInstance st publicValue))

/-- Body of a synthesized instance method (step 3.4b.1): guard on an unbound
receiver, else translate the arguments, apply the private function with the
bound private instance as receiver, and translate the result. -/
def runProtoMethod (st : Registry) (sm : SynthMethod) (thisV : JSVal)
    (publicArgs : List JSVal) : JSVal :=
  match boundPrivate st thisV with
  | none => JSVal.undef
  | some priv =>
    match sm with
    | SynthMethod.fromFunc f =>
      let privatArgs := argListOf (filterPublicInstance st (JSVal.arr publicArgs))
      filterPrivateInstance st (f priv privatArgs)

/-- Read a static member of the façade through its synthesized getter. -/
def invokeStaticGet (st : Registry) (fc : Facade) (k : String) : Option JSVal :=
  (List.lookup k fc.staticProps).bind fun sd =>
    sd.get.map fun sg => runStaticGet st fc.implId sg

/-- Call a static method of the façade through its synthesized body. -/
def invokeStaticMethod (st : Registry) (fc : Facade) (k : String)
    (publicArgs : List JSVal) : Option JSVal :=
  (List.lookup k fc.staticProps).bind fun sd =>
    sd.value.map fun sm => runStaticMethod st fc.implId sm publicArgs

/-- Read an instance member of the façade through its synthesized getter. -/
def invokeProtoGet (st : Registry) (fc : Facade) (k : String) (thisV : JSVal) :
    Option JSVal :=
  (List.lookup k fc.protoProps).bind fun sd =>
    sd.get.map fun sg => runProtoGet st sg thisV

/-- Call an instance method of the façade through its synthesized body. -/
def invokeProtoMethod (st : Registry) (fc : Facade) (k : String) (thisV : JSVal)
    (publicArgs : List JSVal) : Option JSVal :=
  (List.lookup k fc.protoProps).bind fun sd =>
    sd.value.map fun sm => runProtoMethod st sm thisV publicArgs

end Utility

namespace Builder

mutual

/-- `filterPublic` of `src/PublicClassBuilder.js`, lines 9–22 (public→private
translation for one builder's registry).  Unlike the `Utility.js` filters it
also consults the class-level map: a registered façade class becomes its
implementation class.  The promise branch again tests
`typeof obj === 'promise'`, which is never true. -/
def filterPublic (st : Registry) : JSVal → JSVal
  | JSVal.objRef id cls =>
    match List.lookup id st.publicInstancesMap with
    | some priv => priv
    | none =>
      match List.lookup id st.publicClassesMap with
      | some implId => JSVal.classRef implId
      | none => JSVal.objRef id cls
  | JSVal.classRef id =>
    match List.lookup id st.publicInstancesMap with
    | some priv => priv
    | none =>
      match List.lookup id st.publicClassesMap with
      | some implId => JSVal.classRef implId
      | none => JSVal.classRef id
  | JSVal.arr elems => JSVal.arr (filterPublicList st elems)
  | JSVal.promiseVal r =>
    if jsTypeof (JSVal.promiseVal r) = "promise"
    then JSVal.promiseVal (filterPublic st r)
    else JSVal.promiseVal r
  | v => v

/-- Element-wise translation of an array
(`obj.map(elem => filterPublic.call(this, elem))`). -/
def filterPublicList (st : Registry) : List JSVal → List JSVal
  | [] => []
  | e :: es => filterPublic st e :: filterPublicList st es

end

mutual

/-- `filterPrivate` of `src/PublicClassBuilder.js`, lines 24–37 (private→
public translation): a registered private instance becomes its façade
instance; a registered implementation class becomes its façade class. -/
def filterPrivate (st : Registry) : JSVal → JSVal
  | JSVal.objRef id cls =>
    match List.lookup id st.privateInstancesMap with
    | some pub => pub
    | none =>
      match List.lookup id st.privateClassesMap with
      | some fc => JSVal.classRef fc.id
      | none => JSVal.objRef id cls
  | JSVal.classRef id =>
    match List.lookup id st.privateInstancesMap with
    | some pub => pub
    | none =>
      match List.lookup id st.privateClassesMap with
      | some fc => JSVal.classRef fc.id
      | none => JSVal.classRef id
  | JSVal.arr elems => JSVal.arr (filterPrivateList st elems)
  | JSVal.promiseVal r =>
    if jsTypeof (JSVal.promiseVal r) = "promise"
    then JSVal.promiseVal (filterPrivate st r)
    else JSVal.promiseVal r
  | v => v

/-- Element-wise translation of an array
(`obj.map(elem => filterPrivate.call(this, elem))`). -/
def filterPrivateList (st : Registry) : List JSVal → List JSVal
  | [] => []
  | e :: es => filterPrivate st e :: filterPrivateList st es

end

/-- `buildPublicClass` of `src/PublicClassBuilder.js`, lines 39–198: the two
transfer loops synthesizing the façade class (given the id the class
allocation receives); registration is left to the caller. -/
def buildPublicClass (facadeId : Nat) (impl : ImplClass) : Except JSError Facade :=
  match transferProps skipStaticKey impl.staticProps with
  | Except.error e => Except.error e
  | Except.ok sProps =>
    match transferProps skipProtoKey impl.protoProps with
    | Except.error e => Except.error e
    | Except.ok pProps =>
      Except.ok { id := facadeId, implId := impl.id,
                  staticProps := sProps, protoProps := pProps }

/-- `PublicClassBuilder#getPublicClass`, lines 214–231: cache check against
the builder's `privateClassesMap`, else build and register the class pair in
both class-level maps before returning. -/
def getPublicClass (st : Registry) (impl : ImplClass) :
    Except JSError (Facade × Registry) :=
  match List.lookup impl.id st.privateClassesMap with
  | some fc => Except.ok (fc, st)
  | none =>
    match buildPublicClass st.nextId impl with
    | Except.error e => Except.error e
    | Except.ok fc =>
      Except.ok (fc,
        { st with
          nextId := st.nextId + 1,
          privateClassesMap := (impl.id, fc) :: st.privateClassesMap,
          publicClassesMap := (fc.id, impl.id) :: st.publicClassesMap })

/-- `PublicClass#constructor` of `src/PublicClassBuilder.js`, lines 44–62:
identical to the `Utility.js` constructor except that the argument array is
translated with the builder's `filterPublic`. -/
def publicConstructor (st : Registry) (impl : ImplClass) (fc : Facade)
    (publicArgs : List JSVal) : Except JSError (JSVal × Registry) :=
  let arg0 := publicArgs.headD JSVal.undef
  if isInstanceOf arg0 impl.id then
    let pid := objId arg0
    if (List.lookup pid st.privateInstancesMap).isSome then
      Except.error JSError.alreadyBound
    else
      let thisV := JSVal.objRef st.nextId fc.id
      Except.ok (thisV,
        { st with
          nextId := st.nextId + 1,
          publicInstancesMap := (st.nextId, arg0) :: st.publicInstancesMap,
          privateInstancesMap := (pid, thisV) :: st.privateInstancesMap })
  else
    let _privatArgs := filterPublic st (JSVal.arr publicArgs)
    let privV := JSVal.objRef st.nextId impl.id
    let thisV := JSVal.objRef (st.nextId + 1) fc.id
    Except.ok (thisV,
      { st with
        nextId := st.nextId + 2,
        publicInstancesMap := (st.nextId + 1, privV) :: st.publicInstancesMap,
        privateInstancesMap := (st.nextId, thisV) :: st.privateInstancesMap })

/-- `PublicClass._get` of `src/PublicClassBuilder.js`, lines 64–71: the
registered path works, but the fallback branch evaluates
`privateInstance instanceof publicClassesMap.get(PublicClass)` where the
identifier `publicClassesMap` does not exist anywhere in the module scope of
`PublicClassBuilder.js` (the builder's map is `_private.publicClassesMap`),
so reaching the branch raises the host's `ReferenceError`. -/
def staticGet (st : Registry) (v : JSVal) : Except JSError (JSVal × Registry) :=
  match weakKey v with
  | some pid =>
    match List.lookup pid st.privateInstancesMap with
    | some pub => Except.ok (pub, st)
    | none => Except.error JSError.referenceError
  | none => Except.error JSError.referenceError

/-- Body of a synthesized static getter in the builder variant (steps 2.4a.1
and 2.4b.2 of `buildPublicClass`). -/
def runStaticGet (st : Registry) (implId : Nat) : SynthGet → JSVal
  | SynthGet.fromGetter g => filterPrivate st (g (JSVal.classRef implId))
  | SynthGet.fromValue cap => filterPrivate st (descJS cap)

/-- Body of a synthesized static setter in the builder variant (2.4a.2). -/
def runStaticSet (st : Registry) (implId : Nat) (ss : SynthSet)
    (publicValue : JSVal) : JSVal :=
  match ss with
  | SynthSet.fromSetter s => s (JSVal.classRef implId) (filterPublic st publicValue)

/-- Body of a synthesized static method in the builder variant (2.4b.1): the
receiver is again the **private class**
(`privateProperty.value.apply(PrivateClass, privatArgs)`). -/
def runStaticMethod (st : Registry) (implId : Nat) (sm : SynthMethod)
    (publicArgs : List JSVal) : JSVal :=
  match sm with
  | SynthMethod.fromFunc f =>
    let privatArgs := argListOf (filterPublic st (JSVal.arr publicArgs))
    filterPrivate st (f (JSVal.classRef implId) privatArgs)

/-- Body of a synthesized instance getter in the builder variant (3.4a.1 and
3.4b.2), with the unbound-receiver guard. -/
def runProtoGet (st : Registry) (sg : SynthGet) (thisV : JSVal) : JSVal :=
  match boundPrivate st thisV with
  | none => JSVal.undef
  | some priv =>
    match sg with
    | SynthGet.fromGetter g => filterPrivate st (g priv)
    | SynthGet.fromValue cap => filterPrivate st (descJS cap)

/-- Body of a synthesized instance setter in the builder variant (3.4a.2);
`none` models the guarded early return, `some r` the private-setter call. -/
def runProtoSet (st : Registry) (ss : SynthSet) (thisV publicValue : JSVal) :
    Option JSVal :=
  match boundPrivate st thisV with
  | none => none
  | some priv =>
    match ss with
    | SynthSet.fromSetter s => some (s priv (filterPublic st publicValue))

/-- Body of a synthesized instance method in the builder variant (3.4b.1),
with the unbound-receiver guard. -/
def runProtoMethod (st : Registry) (sm : SynthMethod) (thisV : JSVal)
    (publicArgs : List JSVal) : JSVal :=
  match boundPrivate st thisV with
  | none => JSVal.undef
  | some priv =>
    match sm with
    | SynthMethod.fromFunc f =>
      let privatArgs := argListOf (filterPublic st (JSVal.arr publicArgs))
      filterPrivate st (f priv privatArgs)

/-- Read a static member of the builder-scoped façade. -/
def invokeStaticGet (st : Registry) (fc : Facade) (k : String) : Option JSVal :=
  (List.lookup k fc.staticProps).bind fun sd =>
    sd.get.map fun sg => runStaticGet st fc.implId sg

/-- Call a static method of the builder-scoped façade. -/
def invokeStaticMethod (st : Registry) (fc : Facade) (k : String)
    (publicArgs : List JSVal) : Option JSVal :=
  (List.lookup k fc.staticProps).bind fun sd =>
    sd.value.map fun sm => runStaticMethod st fc.implId sm publicArgs

/-- Read an instance member of the builder-scoped façade. -/
def invokeProtoGet (st : Registry) (fc : Facade) (k : String) (thisV : JSVal) :
    Option JSVal :=
  (List.lookup k fc.protoProps).bind fun sd =>
    sd.get.map fun sg => runProtoGet st sg thisV

/-- Call an instance method of the builder-scoped façade. -/
def invokeProtoMethod (st : Registry) (fc : Facade) (k : String) (thisV : JSVal)
    (publicArgs : List JSVal) : Option JSVal :=
  (List.lookup k fc.protoProps).bind fun sd =>
    sd.value.map fun sm => runProtoMethod st sm thisV publicArgs

end Builder

/-! ### Helper lemmas -/

lemma filterPublicInstanceList_eq_map (st : Registry) (es : List JSVal) :
    Utility.filterPublicInstanceList st es = es.map (Utility.filterPublicInstance st) := by
  induction es with
  | nil => simp [Utility.filterPublicInstanceList]
  | cons e es ih => simp [Utility.filterPublicInstanceList, ih]

lemma filterPrivateInstanceList_eq_map (st : Registry) (es : List JSVal) :
    Utility.filterPrivateInstanceList st es = es.map (Utility.filterPrivateInstance st) := by
  induction es with
  | nil => simp [Utility.filterPrivateInstanceList]
  | cons e es ih => simp [Utility.filterPrivateInstanceList, ih]

lemma filterPublicList_eq_map (st : Registry) (es : List JSVal) :
    Builder.filterPublicList st es = es.map (Builder.filterPublic st) := by
  induction es with
  | nil => simp [Builder.filterPublicList]
  | cons e es ih => simp [Builder.filterPublicList, ih]

lemma filterPrivateList_eq_map (st : Registry) (es : List JSVal) :
    Builder.filterPrivateList st es = es.map (Builder.filterPrivate st) := by
  induction es with
  | nil => simp [Builder.filterPrivateList]
  | cons e es ih => simp [Builder.filterPrivateList, ih]

/-- Every property surviving a transfer loop has a non-skipped key and a
descriptor that passed the `Object.defineProperty` validity check. -/
lemma transferProps_ok_mem (skip : String → Bool)
    (props : List (PropKey × PropDescriptor)) (l : List (String × SynthDesc))
    (h : transferProps skip props = Except.ok l)
    (k : String) (sd : SynthDesc) (hm : (k, sd) ∈ l) :
    skip k = false ∧ validDesc sd = true := by
  induction props generalizing l with
  | nil =>
    simp only [transferProps, Except.ok.injEq] at h
    subst h
    simp at hm
  | cons p rest ih =>
    obtain ⟨pk, d⟩ := p
    cases pk with
    | sym i =>
      simp only [transferProps] at h
      exact ih l h hm
    | str k' =>
      simp only [transferProps] at h
      by_cases hs : skip k' = true
      · rw [if_pos hs] at h
        exact ih l h hm
      · rw [if_neg hs] at h
        by_cases hv : validDesc (synthDesc d) = true
        · rw [if_pos hv] at h
          cases hrest : transferProps skip rest with
          | ok l' =>
            rw [hrest] at h
            simp only [Except.ok.injEq] at h
            subst h
            rcases List.mem_cons.mp hm with hhd | htl
            · cases hhd
              exact ⟨Bool.not_eq_true _ ▸ (by simpa using hs), hv⟩
            · exact ih l' hrest htl
          | error e =>
            rw [hrest] at h
            cases h
        · rw [if_neg hv] at h
          cases h

/-- A non-skipped string-keyed property of the private table is transferred
under its own name with the synthesized descriptor, which necessarily passed
the `Object.defineProperty` validity check. -/
lemma transferProps_ok_lookup (skip : String → Bool)
    (props : List (PropKey × PropDescriptor)) (l : List (String × SynthDesc))
    (h : transferProps skip props = Except.ok l)
    (k : String) (d : PropDescriptor)
    (hd : lookupPropStr props k = some d) (hk : skip k = false) :
    List.lookup k l = some (synthDesc d) ∧ validDesc (synthDesc d) = true := by
  induction props generalizing l with
  | nil => simp [lookupPropStr] at hd
  | cons p rest ih =>
    obtain ⟨pk, d'⟩ := p
    cases pk with
    | sym i =>
      simp only [transferProps] at h
      simp only [lookupPropStr] at hd
      exact ih l h hd
    | str k' =>
      simp only [transferProps] at h
      simp only [lookupPropStr] at hd
      by_cases heq : k' = k
      · subst heq
        simp only [if_pos rfl] at hd
        cases hd
        rw [if_neg (by simp [hk])] at h
        by_cases hv : validDesc (synthDesc d) = true
        · rw [if_pos hv] at h
          cases hrest : transferProps skip rest with
          | ok l' =>
            rw [hrest] at h
            simp only [Except.ok.injEq] at h
            subst h
            exact ⟨by simp [List.lookup], hv⟩
          | error e =>
            rw [hrest] at h
            cases h
        · rw [if_neg hv] at h
          cases h
      · rw [if_neg heq] at hd
        by_cases hs : skip k' = true
        · rw [if_pos hs] at h
          exact ih l h hd
        · rw [if_neg hs] at h
          by_cases hv : validDesc (synthDesc d') = true
          · rw [if_pos hv] at h
            cases hrest : transferProps skip rest with
            | ok l' =>
              rw [hrest] at h
              simp only [Except.ok.injEq] at h
              subst h
              have hne : (k == k') = false := by
                simp [beq_iff_eq]
                exact fun hkk => heq hkk.symm
              obtain ⟨ih1, ih2⟩ := ih l' hrest hd
              refine ⟨?_, ih2⟩
              simp [List.lookup, hne, ih1]
            | error e =>
              rw [hrest] at h
              cases h
          · rw [if_neg hv] at h
            cases h

/-- The only error a transfer loop can raise is the host's `TypeError` from
`Object.defineProperty`. -/
lemma transferProps_error (skip : String → Bool)
    (props : List (PropKey × PropDescriptor)) (e : JSError)
    (h : transferProps skip props = Except.error e) : e = JSError.typeError := by
  induction props with
  | nil => simp [transferProps] at h
  | cons p rest ih =>
    obtain ⟨pk, d⟩ := p
    cases pk with
    | sym i =>
      simp only [transferProps] at h
      exact ih h
    | str k' =>
      simp only [transferProps] at h
      by_cases hs : skip k' = true
      · rw [if_pos hs] at h
        exact ih h
      · rw [if_neg hs] at h
        by_cases hv : validDesc (synthDesc d) = true
        · rw [if_pos hv] at h
          cases hrest : transferProps skip rest with
          | ok l' => rw [hrest] at h; cases h
          | error e' =>
            rw [hrest] at h
            cases h
            exact ih hrest
        · rw [if_neg hv] at h
          cases h
          rfl

/-- A non-skipped string-keyed property whose synthesized descriptor is
invalid aborts the transfer loop with the `TypeError`. -/
lemma transferProps_bad_mem (skip : String → Bool)
    (props : List (PropKey × PropDescriptor))
    (k : String) (d : PropDescriptor)
    (hm : (PropKey.str k, d) ∈ props) (hk : skip k = false)
    (hbad : validDesc (synthDesc d) = false) :
    transferProps skip props = Except.error JSError.typeError := by
  induction props with
  | nil => simp at hm
  | cons p rest ih =>
    rcases List.mem_cons.mp hm with hhd | htl
    · subst hhd
      simp only [transferProps]
      rw [if_neg (by simp [hk]), if_neg (by simp [hbad])]
    · obtain ⟨pk, d'⟩ := p
      cases pk with
      | sym i =>
        simp only [transferProps]
        exact ih htl
      | str k' =>
        simp only [transferProps]
        by_cases hs : skip k' = true
        · rw [if_pos hs]
          exact ih htl
        · rw [if_neg hs]
          by_cases hv : validDesc (synthDesc d') = true
          · rw [if_pos hv, ih htl]
          · rw [if_neg hv]

/-- The builder's compile step computes exactly what the process-wide
compile step computes: the two source files differ only in where the registry
lives and in the synthesized closures' filters, not in the compile logic. -/
lemma builder_getPublicClass_eq (st : Registry) (impl : ImplClass) :
    Builder.getPublicClass st impl = Utility.getPublicClass st impl := by
  unfold Builder.getPublicClass Builder.buildPublicClass Utility.getPublicClass
  cases List.lookup impl.id st.privateClassesMap with
  | some fc => rfl
  | none =>
    cases transferProps skipStaticKey impl.staticProps with
    | error e => rfl
    | ok sProps =>
      cases transferProps skipProtoKey impl.protoProps with
      | error e => rfl
      | ok pProps => rfl

/-! ### Concrete inputs used by witnesses and counterexamples -/

/-- An empty registry; ids below `1` are reserved for implementation classes
chosen by the concrete examples. -/
def emptyReg : Registry :=
  { publicClassesMap := [], privateClassesMap := [],
    publicInstancesMap := [], privateInstancesMap := [], nextId := 1 }

/-! ### Claims -/

/-- **C8** — For every array value crossing the boundary in either direction
(`toPublic` or `toPrivate`, i.e. the four filter functions of the two source
files), the translator returns a new array of the same length and order whose
elements are each translated independently (`obj.map(...)`).  The filters are
read-only in the registry and build a fresh list, so the original array is
not modified in place (immediate in this pure embedding: the input `es` is
untouched and reusable). -/
theorem claim_C8_array_elementwise (st : Registry) (es : List JSVal) :
    Utility.filterPublicInstance st (JSVal.arr es) =
      JSVal.arr (es.map (Utility.filterPublicInstance st)) ∧
    Utility.filterPrivateInstance st (JSVal.arr es) =
      JSVal.arr (es.map (Utility.filterPrivateInstance st)) ∧
    Builder.filterPublic st (JSVal.arr es) =
      JSVal.arr (es.map (Builder.filterPublic st)) ∧
    Builder.filterPrivate st (JSVal.arr es) =
      JSVal.arr (es.map (Builder.filterPrivate st)) ∧
    (es.map (Utility.filterPublicInstance st)).length = es.length := by
  refine ⟨?_, ?_, ?_, ?_, List.length_map es _⟩
  · rw [Utility.filterPublicInstance, filterPublicInstanceList_eq_map]
  · rw [Utility.filterPrivateInstance, filterPrivateInstanceList_eq_map]
  · rw [Builder.filterPublic, filterPublicList_eq_map]
  · rw [Builder.filterPrivate, filterPrivateList_eq_map]

/-- **C9** — Every synthesized instance-level member (getter, setter, or
method, in both variants) invoked with a receiver that has no bound
implementation instance produces no value: the getter and method bodies
return `undefined` and the setter body returns without invoking the private
setter (`none` in this embedding); none of them raises an error — the run
functions are total and return normally. -/
theorem claim_C9_unbound_receiver_guard (st : Registry) (sg : SynthGet)
    (ss : SynthSet) (sm : SynthMethod) (thisV pv : JSVal) (args : List JSVal)
    (h : boundPrivate st thisV = none) :
    Utility.runProtoGet st sg thisV = JSVal.undef ∧
    Utility.runProtoSet st ss thisV pv = none ∧
    Utility.runProtoMethod st sm thisV args = JSVal.undef ∧
    Builder.runProtoGet st sg thisV = JSVal.undef ∧
    Builder.runProtoSet st ss thisV pv = none ∧
    Builder.runProtoMethod st sm thisV args = JSVal.undef := by
  unfold Utility.runProtoGet Utility.runProtoSet Utility.runProtoMethod
    Builder.runProtoGet Builder.runProtoSet Builder.runProtoMethod
  rw [h]
  exact ⟨rfl, rfl, rfl, rfl, rfl, rfl⟩

/-- Witness for C9: a bare-prototype-like receiver (an object never bound by
any constructor) hits the guard in all six synthesized member kinds. -/
theorem claim_C9_witness :
    boundPrivate emptyReg (JSVal.objRef 3 1) = none ∧
    (Utility.runProtoGet emptyReg (SynthGet.fromValue none) (JSVal.objRef 3 1) = JSVal.undef ∧
     Utility.runProtoSet emptyReg (SynthSet.fromSetter fun _ v => v) (JSVal.objRef 3 1)
       (JSVal.num 4) = none ∧
     Utility.runProtoMethod emptyReg (SynthMethod.fromFunc fun _ _ => JSVal.num 0)
       (JSVal.objRef 3 1) [] = JSVal.undef ∧
     Builder.runProtoGet emptyReg (SynthGet.fromValue none) (JSVal.objRef 3 1) = JSVal.undef ∧
     Builder.runProtoSet emptyReg (SynthSet.fromSetter fun _ v => v) (JSVal.objRef 3 1)
       (JSVal.num 4) = none ∧
     Builder.runProtoMethod emptyReg (SynthMethod.fromFunc fun _ _ => JSVal.num 0)
       (JSVal.objRef 3 1) [] = JSVal.undef) :=
  ⟨rfl, claim_C9_unbound_receiver_guard emptyReg (SynthGet.fromValue none)
    (SynthSet.fromSetter fun _ v => v) (SynthMethod.fromFunc fun _ _ => JSVal.num 0)
    (JSVal.objRef 3 1) (JSVal.num 4) [] rfl⟩

/-- **C2** — For every implementation type accepted by compile whose first
(building) call in a scope returns a façade, the class pair is registered in
both class-level maps before that call returns, and a second call in the same
scope returns the identical façade reference (with the registry unchanged) —
in both the process-wide (`Utility.getPublicClass`) and the builder-scoped
(`PublicClassBuilder#getPublicClass`) variant. -/
theorem claim_C2_compile_idempotent :
    (∀ (st : Registry) (impl : ImplClass) (fc : Facade) (st' : Registry),
      List.lookup impl.id st.privateClassesMap = none →
      Utility.getPublicClass st impl = Except.ok (fc, st') →
      List.lookup impl.id st'.privateClassesMap = some fc ∧
      List.lookup fc.id st'.publicClassesMap = some impl.id ∧
      Utility.getPublicClass st' impl = Except.ok (fc, st')) ∧
    (∀ (st : Registry) (impl : ImplClass) (fc : Facade) (st' : Registry),
      List.lookup impl.id st.privateClassesMap = none →
      Builder.getPublicClass st impl = Except.ok (fc, st') →
      List.lookup impl.id st'.privateClassesMap = some fc ∧
      List.lookup fc.id st'.publicClassesMap = some impl.id ∧
      Builder.getPublicClass st' impl = Except.ok (fc, st')) := by
  have hcore : ∀ (st : Registry) (impl : ImplClass) (fc : Facade) (st' : Registry),
      List.lookup impl.id st.privateClassesMap = none →
      Utility.getPublicClass st impl = Except.ok (fc, st') →
      List.lookup impl.id st'.privateClassesMap = some fc ∧
      List.lookup fc.id st'.publicClassesMap = some impl.id ∧
      Utility.getPublicClass st' impl = Except.ok (fc, st') := by
    intro st impl fc st' hnc h
    unfold Utility.getPublicClass at h
    rw [hnc] at h
    cases hs : transferProps skipStaticKey impl.staticProps with
    | error e => rw [hs] at h; cases h
    | ok sProps =>
      rw [hs] at h
      cases hp : transferProps skipProtoKey impl.protoProps with
      | error e => rw [hp] at h; cases h
      | ok pProps =>
        rw [hp] at h
        simp only [Except.ok.injEq, Prod.mk.injEq] at h
        obtain ⟨hfc, hst⟩ := h
        subst hfc
        subst hst
        refine ⟨by simp [List.lookup], by simp [List.lookup], ?_⟩
        unfold Utility.getPublicClass
        simp [List.lookup]
  refine ⟨hcore, ?_⟩
  intro st impl fc st' hnc h
  rw [builder_getPublicClass_eq] at h
  obtain ⟨h1, h2, h3⟩ := hcore st impl fc st' hnc h
  exact ⟨h1, h2, by rw [builder_getPublicClass_eq]; exact h3⟩

/-- A minimal implementation class for the C2 witness: one exposed static
method and one internal static field. -/
def implW : ImplClass :=
  ⟨0, [(PropKey.str "ping", { value := some (DescValue.func fun _ _ => JSVal.num 7) }),
       (PropKey.str "_count", { writable := true,
                                value := some (DescValue.jsval (JSVal.num 0)) })], []⟩

/-- The façade the compile of `implW` from `emptyReg` produces. -/
def fcW : Facade :=
  ⟨1, 0, [("ping", { value := some (SynthMethod.fromFunc fun _ _ => JSVal.num 7) })], []⟩

/-- The registry after the first compile of `implW` from `emptyReg`. -/
def stregW : Registry :=
  { publicClassesMap := [(1, 0)], privateClassesMap := [(0, fcW)],
    publicInstancesMap := [], privateInstancesMap := [], nextId := 2 }

/-- Witness for C2: compiling `implW` twice from the empty registry, in both
variants, returns the same façade reference, registered in both class maps. -/
theorem claim_C2_witness :
    (List.lookup implW.id emptyReg.privateClassesMap = none ∧
     Utility.getPublicClass emptyReg implW = Except.ok (fcW, stregW) ∧
     (List.lookup implW.id stregW.privateClassesMap = some fcW ∧
      List.lookup fcW.id stregW.publicClassesMap = some implW.id ∧
      Utility.getPublicClass stregW implW = Except.ok (fcW, stregW))) ∧
    (Builder.getPublicClass emptyReg implW = Except.ok (fcW, stregW) ∧
     (List.lookup implW.id stregW.privateClassesMap = some fcW ∧
      List.lookup fcW.id stregW.publicClassesMap = some implW.id ∧
      Builder.getPublicClass stregW implW = Except.ok (fcW, stregW))) :=
  ⟨⟨rfl, rfl, claim_C2_compile_idempotent.1 emptyReg implW fcW stregW rfl rfl⟩,
   ⟨rfl, claim_C2_compile_idempotent.2 emptyReg implW fcW stregW rfl rfl⟩⟩

/-- **C3** — In both variants: wrapping an implementation instance that
already has a registered façade instance fails with the `AlreadyBound` error;
wrapping an unregistered one succeeds, registers the bijective pair in both
instance maps before the constructor returns, and wrapping the same
implementation instance a second time then fails with `AlreadyBound`. -/
theorem claim_C3_wrap_already_bound :
    (∀ (st : Registry) (impl : ImplClass) (fc : Facade) (pid : Nat),
      ((List.lookup pid st.privateInstancesMap).isSome →
        Utility.publicConstructor st impl fc [JSVal.objRef pid impl.id] =
          Except.error JSError.alreadyBound) ∧
      (List.lookup pid st.privateInstancesMap = none →
        ∃ pub st',
          Utility.publicConstructor st impl fc [JSVal.objRef pid impl.id] =
            Except.ok (pub, st') ∧
          List.lookup (objId pub) st'.publicInstancesMap =
            some (JSVal.objRef pid impl.id) ∧
          List.lookup pid st'.privateInstancesMap = some pub ∧
          Utility.publicConstructor st' impl fc [JSVal.objRef pid impl.id] =
            Except.error JSError.alreadyBound)) ∧
    (∀ (st : Registry) (impl : ImplClass) (fc : Facade) (pid : Nat),
      ((List.lookup pid st.privateInstancesMap).isSome →
        Builder.publicConstructor st impl fc [JSVal.objRef pid impl.id] =
          Except.error JSError.alreadyBound) ∧
      (List.lookup pid st.privateInstancesMap = none →
        ∃ pub st',
          Builder.publicConstructor st impl fc [JSVal.objRef pid impl.id] =
            Except.ok (pub, st') ∧
          List.lookup (objId pub) st'.publicInstancesMap =
            some (JSVal.objRef pid impl.id) ∧
          List.lookup pid st'.privateInstancesMap = some pub ∧
          Builder.publicConstructor st' impl fc [JSVal.objRef pid impl.id] =
            Except.error JSError.alreadyBound)) := by
  constructor
  · intro st impl fc pid
    constructor
    · intro hsome
      unfold Utility.publicConstructor
      simp [isInstanceOf, objId, hsome]
    · intro hnone
      refine ⟨JSVal.objRef st.nextId fc.id,
        { st with
          nextId := st.nextId + 1,
          publicInstancesMap := (st.nextId, JSVal.objRef pid impl.id) :: st.publicInstancesMap,
          privateInstancesMap := (pid, JSVal.objRef st.nextId fc.id) :: st.privateInstancesMap },
        ?_, ?_, ?_, ?_⟩
      · unfold Utility.publicConstructor
        simp [isInstanceOf, objId, hnone]
      · simp [objId, List.lookup]
      · simp [List.lookup]
      · unfold Utility.publicConstructor
        simp [isInstanceOf, objId, List.lookup]
  · intro st impl fc pid
    constructor
    · intro hsome
      unfold Builder.publicConstructor
      simp [isInstanceOf, objId, hsome]
    · intro hnone
      refine ⟨JSVal.objRef st.nextId fc.id,
        { st with
          nextId := st.nextId + 1,
          publicInstancesMap := (st.nextId, JSVal.objRef pid impl.id) :: st.publicInstancesMap,
          privateInstancesMap := (pid, JSVal.objRef st.nextId fc.id) :: st.privateInstancesMap },
        ?_, ?_, ?_, ?_⟩
      · unfold Builder.publicConstructor
        simp [isInstanceOf, objId, hnone]
      · simp [objId, List.lookup]
      · simp [List.lookup]
      · unfold Builder.publicConstructor
        simp [isInstanceOf, objId, List.lookup]

/-- A registry in which the private instance with id `5` is already bound to
a façade instance. -/
def stBound : Registry :=
  { publicClassesMap := [(1, 0)], privateClassesMap := [(0, fcW)],
    publicInstancesMap := [(9, JSVal.objRef 5 0)],
    privateInstancesMap := [(5, JSVal.objRef 9 1)], nextId := 10 }

/-- Witness for C3: wrapping the already-bound private instance `5` fails in
both variants, and wrapping the fresh private instance `6` succeeds,
registers the pair, and fails on the second wrap. -/
theorem claim_C3_witness :
    ((List.lookup 5 stBound.privateInstancesMap).isSome ∧
     Utility.publicConstructor stBound implW fcW [JSVal.objRef 5 implW.id] =
       Except.error JSError.alreadyBound ∧
     Builder.publicConstructor stBound implW fcW [JSVal.objRef 5 implW.id] =
       Except.error JSError.alreadyBound) ∧
    (List.lookup 6 stBound.privateInstancesMap = none ∧
     (∃ pub st',
        Utility.publicConstructor stBound implW fcW [JSVal.objRef 6 implW.id] =
          Except.ok (pub, st') ∧
        List.lookup (objId pub) st'.publicInstancesMap = some (JSVal.objRef 6 implW.id) ∧
        List.lookup 6 st'.privateInstancesMap = some pub ∧
        Utility.publicConstructor st' implW fcW [JSVal.objRef 6 implW.id] =
          Except.error JSError.alreadyBound) ∧
     (∃ pub st',
        Builder.publicConstructor stBound implW fcW [JSVal.objRef 6 implW.id] =
          Except.ok (pub, st') ∧
        List.lookup (objId pub) st'.publicInstancesMap = some (JSVal.objRef 6 implW.id) ∧
        List.lookup 6 st'.privateInstancesMap = some pub ∧
        Builder.publicConstructor st' implW fcW [JSVal.objRef 6 implW.id] =
          Except.error JSError.alreadyBound)) :=
  ⟨⟨rfl, (claim_C3_wrap_already_bound.1 stBound implW fcW 5).1 rfl,
        (claim_C3_wrap_already_bound.2 stBound implW fcW 5).1 rfl⟩,
   ⟨rfl, (claim_C3_wrap_already_bound.1 stBound implW fcW 6).2 rfl,
        (claim_C3_wrap_already_bound.2 stBound implW fcW 6).2 rfl⟩⟩

/-- **C1, counterexample** — The claim states that for *every* member name
beginning with `_` the synthesized façade type has no own or inherited member
of that name at either level.  It is false at the name `_get`: every
synthesized façade class declares the static lookup accessor `_get`, whose
name begins with the internal marker.  Concretely, compiling `implW` (which
has an internal `_count`, duly skipped) yields a façade whose own static
member names include `_get`. -/
theorem claim_C1_counterexample :
    Utility.getPublicClass emptyReg implW = Except.ok (fcW, stregW) ∧
    startsWithUnderscore "_get" = true ∧
    "_get" ∈ facadeOwnStaticKeys fcW := by
  refine ⟨rfl, rfl, ?_⟩
  simp [facadeOwnStaticKeys, fcW]

/-- **C1, amended** — For every implementation type compiled in either
variant: no own member of the façade at the instance (prototype) level has a
name beginning with the internal marker `_`, and the only own type-level
(static) member whose name begins with `_` is the synthesized lookup accessor
`_get` itself; in particular no implementation member beginning with `_` is
transferred.  (Members the façade inherits from host built-ins such as
`Function.prototype` and `Object.prototype` are outside the program and not
modelled.) -/
theorem claim_C1_amended :
    (∀ (st : Registry) (impl : ImplClass) (fc : Facade) (st' : Registry),
      List.lookup impl.id st.privateClassesMap = none →
      Utility.getPublicClass st impl = Except.ok (fc, st') →
      (∀ k, k ∈ facadeOwnProtoKeys fc → startsWithUnderscore k = false) ∧
      (∀ k, k ∈ facadeOwnStaticKeys fc → startsWithUnderscore k = true → k = "_get")) ∧
    (∀ (st : Registry) (impl : ImplClass) (fc : Facade) (st' : Registry),
      List.lookup impl.id st.privateClassesMap = none →
      Builder.getPublicClass st impl = Except.ok (fc, st') →
      (∀ k, k ∈ facadeOwnProtoKeys fc → startsWithUnderscore k = false) ∧
      (∀ k, k ∈ facadeOwnStaticKeys fc → startsWithUnderscore k = true → k = "_get")) := by
  have hcore : ∀ (st : Registry) (impl : ImplClass) (fc : Facade) (st' : Registry),
      List.lookup impl.id st.privateClassesMap = none →
      Utility.getPublicClass st impl = Except.ok (fc, st') →
      (∀ k, k ∈ facadeOwnProtoKeys fc → startsWithUnderscore k = false) ∧
      (∀ k, k ∈ facadeOwnStaticKeys fc → startsWithUnderscore k = true → k = "_get") := by
    intro st impl fc st' hnc h
    unfold Utility.getPublicClass at h
    rw [hnc] at h
    cases hs : transferProps skipStaticKey impl.staticProps with
    | error e => rw [hs] at h; cases h
    | ok sProps =>
      rw [hs] at h
      cases hp : transferProps skipProtoKey impl.protoProps with
      | error e => rw [hp] at h; cases h
      | ok pProps =>
        rw [hp] at h
        simp only [Except.ok.injEq, Prod.mk.injEq] at h
        obtain ⟨hfc, _⟩ := h
        subst hfc
        constructor
        · intro k hk
          simp only [facadeOwnProtoKeys, List.mem_cons, List.mem_append,
            List.not_mem_nil, or_false] at hk
          rcases hk with hk | hk
          · subst hk; rfl
          · simp only [List.mem_map] at hk
            obtain ⟨⟨k', sd⟩, hmem, hk'⟩ := hk
            subst hk'
            have := (transferProps_ok_mem skipProtoKey impl.protoProps pProps hp k' sd hmem).1
            simp only [skipProtoKey, Bool.or_eq_false_iff] at this
            exact this.1
        · intro k hk hu
          simp only [facadeOwnStaticKeys, List.mem_append, List.mem_cons,
            List.not_mem_nil, or_false] at hk
          rcases hk with (hk | hk | hk | hk) | hk
          · subst hk; exact absurd hu (by decide)
          · subst hk; exact absurd hu (by decide)
          · subst hk; exact absurd hu (by decide)
          · exact hk
          · simp only [List.mem_map] at hk
            obtain ⟨⟨k', sd⟩, hmem, hk'⟩ := hk
            subst hk'
            have := (transferProps_ok_mem skipStaticKey impl.staticProps sProps hs k' sd hmem).1
            simp only [skipStaticKey, Bool.or_eq_false_iff] at this
            rw [this.1] at hu
            cases hu
  refine ⟨hcore, ?_⟩
  intro st impl fc st' hnc h
  rw [builder_getPublicClass_eq] at h
  exact hcore st impl fc st' hnc h

/-- Witness for the amended C1, at the compile of `implW` in both variants:
`constructor` (the only fixed prototype-level own key) does not begin with
`_`, the exposed transferred key `ping` does not begin with `_`, and the
static member `_get` (which does begin with `_`) is `_get` itself. -/
theorem claim_C1_amended_witness :
    List.lookup implW.id emptyReg.privateClassesMap = none ∧
    Utility.getPublicClass emptyReg implW = Except.ok (fcW, stregW) ∧
    Builder.getPublicClass emptyReg implW = Except.ok (fcW, stregW) ∧
    startsWithUnderscore "constructor" = false ∧
    "_get" = "_get" := by
  refine ⟨rfl, rfl, rfl, ?_, ?_⟩
  · exact (claim_C1_amended.1 emptyReg implW fcW stregW rfl rfl).1 "constructor"
      (by simp [facadeOwnProtoKeys, fcW])
  · exact (claim_C1_amended.2 emptyReg implW fcW stregW rfl rfl).2 "_get"
      (by simp [facadeOwnStaticKeys, fcW]) (by decide)

/-- The synthesized descriptor for a plain (non-accessor, non-function)
private property: a getter closing over the captured `value` slot, no setter,
no method, `writable` copied from the source. -/
lemma synthDesc_plain (d : PropDescriptor) (hg : d.get = none) (hs : d.set = none)
    (hf : isFuncValue d.value = false) :
    synthDesc d = { configurable := d.configurable, enumerable := d.enumerable,
                    writable := d.writable,
                    get := some (SynthGet.fromValue d.value) } := by
  unfold synthDesc
  rw [hg, hs]
  simp only [Option.isSome_none, Bool.or_self, Bool.false_eq_true, if_false]
  cases hv : d.value with
  | none => rfl
  | some dv =>
    cases dv with
    | jsval v => rfl
    | func f => rw [hv] at hf; simp [isFuncValue] at hf

/-- A plain private property synthesizes a valid façade descriptor exactly
when the source property is not writable: otherwise the getter/`writable`
combination is the one `Object.defineProperty` rejects. -/
lemma validDesc_plain (d : PropDescriptor) (hg : d.get = none) (hs : d.set = none)
    (hf : isFuncValue d.value = false) :
    validDesc (synthDesc d) = !d.writable := by
  rw [synthDesc_plain d hg hs hf]
  simp [validDesc]

/-- **C10** — For every implementation type with an exposed (string-keyed,
non-internal, non-reserved) own static or prototype data property that is
writable and whose value is not a function, compilation throws the host's
`TypeError` in both variants: the synthesized descriptor pairs
`writable: true` with an accessor getter, which `Object.defineProperty`
rejects, so such a type cannot be compiled at all. -/
theorem claim_C10_writable_value_typeerror
    (st : Registry) (impl : ImplClass) (k : String) (d : PropDescriptor)
    (hnc : List.lookup impl.id st.privateClassesMap = none)
    (hmem : (PropKey.str k, d) ∈ impl.staticProps ∧ skipStaticKey k = false ∨
            (PropKey.str k, d) ∈ impl.protoProps ∧ skipProtoKey k = false)
    (hg : d.get = none) (hs : d.set = none) (hw : d.writable = true)
    (hf : isFuncValue d.value = false) :
    Utility.getPublicClass st impl = Except.error JSError.typeError ∧
    Builder.getPublicClass st impl = Except.error JSError.typeError := by
  have hbad : validDesc (synthDesc d) = false := by
    rw [validDesc_plain d hg hs hf, hw]
    rfl
  have hu : Utility.getPublicClass st impl = Except.error JSError.typeError := by
    rcases hmem with ⟨hm, hk⟩ | ⟨hm, hk⟩
    · have hts := transferProps_bad_mem skipStaticKey impl.staticProps k d hm hk hbad
      unfold Utility.getPublicClass
      rw [hnc, hts]
    · cases hss : transferProps skipStaticKey impl.staticProps with
      | error e =>
        have := transferProps_error skipStaticKey impl.staticProps e hss
        subst this
        unfold Utility.getPublicClass
        rw [hnc, hss]
      | ok sProps =>
        have htp := transferProps_bad_mem skipProtoKey impl.protoProps k d hm hk hbad
        unfold Utility.getPublicClass
        rw [hnc, hss, htp]
  exact ⟨hu, by rw [builder_getPublicClass_eq]; exact hu⟩

/-- An implementation class with an exposed writable non-function static data
property, for the C10 witness. -/
def implC10 : ImplClass :=
  ⟨0, [(PropKey.str "flag", { writable := true,
                              value := some (DescValue.jsval (JSVal.boolean true)) })], []⟩

/-- Witness for C10: compiling `implC10` throws the `TypeError` in both
variants. -/
theorem claim_C10_witness :
    List.lookup implC10.id emptyReg.privateClassesMap = none ∧
    (PropKey.str "flag",
      ({ writable := true,
         value := some (DescValue.jsval (JSVal.boolean true)) } : PropDescriptor)) ∈
      implC10.staticProps ∧
    skipStaticKey "flag" = false ∧
    (Utility.getPublicClass emptyReg implC10 = Except.error JSError.typeError ∧
     Builder.getPublicClass emptyReg implC10 = Except.error JSError.typeError) :=
  ⟨rfl, List.mem_singleton.mpr rfl, rfl,
   claim_C10_writable_value_typeerror emptyReg implC10 "flag"
     { writable := true, value := some (DescValue.jsval (JSVal.boolean true)) }
     rfl (Or.inl ⟨List.mem_singleton.mpr rfl, rfl⟩) rfl rfl rfl rfl⟩

/-- Shape of a successful, non-cached compile: the façade is allocated at the
registry's next id, tied to the implementation class, and its property tables
are exactly the outputs of the two transfer loops. -/
lemma getPublicClass_ok_shape (st : Registry) (impl : ImplClass) (fc : Facade)
    (st' : Registry)
    (hnc : List.lookup impl.id st.privateClassesMap = none)
    (h : Utility.getPublicClass st impl = Except.ok (fc, st')) :
    fc.id = st.nextId ∧ fc.implId = impl.id ∧
    transferProps skipStaticKey impl.staticProps = Except.ok fc.staticProps ∧
    transferProps skipProtoKey impl.protoProps = Except.ok fc.protoProps := by
  unfold Utility.getPublicClass at h
  rw [hnc] at h
  cases hs : transferProps skipStaticKey impl.staticProps with
  | error e => rw [hs] at h; cases h
  | ok sProps =>
    rw [hs] at h
    cases hp : transferProps skipProtoKey impl.protoProps with
    | error e => rw [hp] at h; cases h
    | ok pProps =>
      rw [hp] at h
      simp only [Except.ok.injEq, Prod.mk.injEq] at h
      obtain ⟨hfc, _⟩ := h
      subst hfc
      exact ⟨rfl, rfl, rfl, rfl⟩

/-- The synthesized descriptor for a private function-valued data property:
a method wrapper, no accessor, `writable` copied from the source. -/
lemma synthDesc_func (d : PropDescriptor) (f : JSVal → List JSVal → JSVal)
    (hg : d.get = none) (hs : d.set = none)
    (hv : d.value = some (DescValue.func f)) :
    synthDesc d = { configurable := d.configurable, enumerable := d.enumerable,
                    writable := d.writable,
                    value := some (SynthMethod.fromFunc f) } := by
  unfold synthDesc
  rw [hg, hs, hv]
  rfl

/-- The behavior claim C5 asserts, written from the spec's words rather than
the source: the façade accessor for a plain value "re-reads the current
private value at each access" — i.e. it consults the implementation class's
*current* static property table at access time and translates that value
private→public.  (Named for comparison against the compiled behavior, which
reads the descriptor snapshot captured at compilation time.) -/
def claimedStaticPlainGet (implNow : ImplClass) (st : Registry) (k : String) :
    Option JSVal :=
  (lookupPropStr implNow.staticProps k).map fun d =>
    Utility.filterPrivateInstance st (descJS d.value)

/-- An implementation class with a plain (non-function, configurable,
non-writable) static value property `version = 1`. -/
def implC5 : ImplClass :=
  ⟨0, [(PropKey.str "version",
        { configurable := true,
          value := some (DescValue.jsval (JSVal.num 1)) })], []⟩

/-- The same implementation class after its author redefines the
(configurable) `version` property to `2` post-compilation. -/
def implC5updated : ImplClass :=
  ⟨0, [(PropKey.str "version",
        { configurable := true,
          value := some (DescValue.jsval (JSVal.num 2)) })], []⟩

/-- The façade compiled from `implC5`: its `version` getter closes over the
descriptor snapshot holding `1`. -/
def fcC5 : Facade :=
  ⟨1, 0, [("version",
           { configurable := true,
             get := some (SynthGet.fromValue
               (some (DescValue.jsval (JSVal.num 1)))) })], []⟩

/-- The registry after compiling `implC5` from `emptyReg`. -/
def stC5 : Registry :=
  { publicClassesMap := [(1, 0)], privateClassesMap := [(0, fcC5)],
    publicInstancesMap := [], privateInstancesMap := [], nextId := 2 }

/-- **C5, counterexample** — The claim says the synthesized getter re-reads
the current private value at each access and never returns a stale copy
captured at compilation time.  It is false: the getter body reads
`privateProperty.value` from the descriptor object captured during the
transfer loop, a snapshot.  After `implC5`'s `version` is redefined to `2`,
the compiled façade getter still yields the compilation-time value `1`,
differing from the claimed behavior. -/
theorem claim_C5_counterexample :
    Utility.getPublicClass emptyReg implC5 = Except.ok (fcC5, stC5) ∧
    Utility.invokeStaticGet stC5 fcC5 "version" = some (JSVal.num 1) ∧
    claimedStaticPlainGet implC5updated stC5 "version" = some (JSVal.num 2) ∧
    Utility.invokeStaticGet stC5 fcC5 "version" ≠
      claimedStaticPlainGet implC5updated stC5 "version" := by
  refine ⟨rfl, rfl, rfl, ?_⟩
  intro h
  rw [show Utility.invokeStaticGet stC5 fcC5 "version" = some (JSVal.num 1) from rfl,
      show claimedStaticPlainGet implC5updated stC5 "version" = some (JSVal.num 2) from rfl]
      at h
  simp at h

/-- **C5, amended** — For every exposed plain (non-accessor, non-function)
static or prototype data property of a compiled implementation type, in both
variants: compilation succeeds for that property only if it is non-writable,
the façade exposes it as a read-only accessor (getter only: no setter, no
value, `writable` false), and the getter translates **the value captured in
the descriptor snapshot at compilation time** private→public — not the
implementation class's current value. -/
theorem claim_C5_amended :
    (∀ (st : Registry) (impl : ImplClass) (fc : Facade) (st' : Registry)
       (k : String) (d : PropDescriptor),
      List.lookup impl.id st.privateClassesMap = none →
      Utility.getPublicClass st impl = Except.ok (fc, st') →
      d.get = none → d.set = none → isFuncValue d.value = false →
      (lookupPropStr impl.staticProps k = some d → skipStaticKey k = false →
        d.writable = false ∧
        List.lookup k fc.staticProps =
          some { configurable := d.configurable, enumerable := d.enumerable,
                 writable := false,
                 get := some (SynthGet.fromValue d.value) } ∧
        (∀ st2, Utility.invokeStaticGet st2 fc k =
          some (Utility.filterPrivateInstance st2 (descJS d.value)))) ∧
      (lookupPropStr impl.protoProps k = some d → skipProtoKey k = false →
        d.writable = false ∧
        List.lookup k fc.protoProps =
          some { configurable := d.configurable, enumerable := d.enumerable,
                 writable := false,
                 get := some (SynthGet.fromValue d.value) } ∧
        (∀ (st2 : Registry) (thisV priv : JSVal), boundPrivate st2 thisV = some priv →
          Utility.invokeProtoGet st2 fc k thisV =
            some (Utility.filterPrivateInstance st2 (descJS d.value))))) ∧
    (∀ (st : Registry) (impl : ImplClass) (fc : Facade) (st' : Registry)
       (k : String) (d : PropDescriptor),
      List.lookup impl.id st.privateClassesMap = none →
      Builder.getPublicClass st impl = Except.ok (fc, st') →
      d.get = none → d.set = none → isFuncValue d.value = false →
      (lookupPropStr impl.staticProps k = some d → skipStaticKey k = false →
        d.writable = false ∧
        (∀ st2, Builder.invokeStaticGet st2 fc k =
          some (Builder.filterPrivate st2 (descJS d.value)))) ∧
      (lookupPropStr impl.protoProps k = some d → skipProtoKey k = false →
        d.writable = false ∧
        (∀ (st2 : Registry) (thisV priv : JSVal), boundPrivate st2 thisV = some priv →
          Builder.invokeProtoGet st2 fc k thisV =
            some (Builder.filterPrivate st2 (descJS d.value))))) := by
  have hwritable : ∀ (d : PropDescriptor), d.get = none → d.set = none →
      isFuncValue d.value = false → validDesc (synthDesc d) = true →
      d.writable = false := by
    intro d hg hs hf hvalid
    rcases Bool.eq_false_or_eq_true d.writable with h' | h'
    · rw [validDesc_plain d hg hs hf, h'] at hvalid
      exact absurd hvalid (by decide)
    · exact h'
  constructor
  · intro st impl fc st' k d hnc hok hg hs hf
    obtain ⟨_, himplId, hts, htp⟩ := getPublicClass_ok_shape st impl fc st' hnc hok
    constructor
    · intro hd hk
      obtain ⟨hlk, hvalid⟩ :=
        transferProps_ok_lookup skipStaticKey impl.staticProps fc.staticProps hts k d hd hk
      have hw := hwritable d hg hs hf hvalid
      have hsd := synthDesc_plain d hg hs hf
      rw [hsd, hw] at hlk
      refine ⟨hw, hlk, ?_⟩
      intro st2
      unfold Utility.invokeStaticGet
      rw [hlk]
      rfl
    · intro hd hk
      obtain ⟨hlk, hvalid⟩ :=
        transferProps_ok_lookup skipProtoKey impl.protoProps fc.protoProps htp k d hd hk
      have hw := hwritable d hg hs hf hvalid
      have hsd := synthDesc_plain d hg hs hf
      rw [hsd, hw] at hlk
      refine ⟨hw, hlk, ?_⟩
      intro st2 thisV priv hb
      have hinv : Utility.invokeProtoGet st2 fc k thisV =
          some (Utility.runProtoGet st2 (SynthGet.fromValue d.value) thisV) := by
        unfold Utility.invokeProtoGet
        rw [hlk]
        rfl
      rw [hinv]
      unfold Utility.runProtoGet
      rw [hb]
  · intro st impl fc st' k d hnc hok hg hs hf
    rw [builder_getPublicClass_eq] at hok
    obtain ⟨_, himplId, hts, htp⟩ := getPublicClass_ok_shape st impl fc st' hnc hok
    constructor
    · intro hd hk
      obtain ⟨hlk, hvalid⟩ :=
        transferProps_ok_lookup skipStaticKey impl.staticProps fc.staticProps hts k d hd hk
      have hw := hwritable d hg hs hf hvalid
      have hsd := synthDesc_plain d hg hs hf
      rw [hsd, hw] at hlk
      refine ⟨hw, ?_⟩
      intro st2
      unfold Builder.invokeStaticGet
      rw [hlk]
      rfl
    · intro hd hk
      obtain ⟨hlk, hvalid⟩ :=
        transferProps_ok_lookup skipProtoKey impl.protoProps fc.protoProps htp k d hd hk
      have hw := hwritable d hg hs hf hvalid
      have hsd := synthDesc_plain d hg hs hf
      rw [hsd, hw] at hlk
      refine ⟨hw, ?_⟩
      intro st2 thisV priv hb
      have hinv : Builder.invokeProtoGet st2 fc k thisV =
          some (Builder.runProtoGet st2 (SynthGet.fromValue d.value) thisV) := by
        unfold Builder.invokeProtoGet
        rw [hlk]
        rfl
      rw [hinv]
      unfold Builder.runProtoGet
      rw [hb]

/-- Witness for the amended C5, on the compile of `implC5`: the `version`
accessor is read-only, and its getter yields the snapshot value `1`
translated through the (empty-instance-map) registry `stC5`. -/
theorem claim_C5_amended_witness :
    List.lookup implC5.id emptyReg.privateClassesMap = none ∧
    Utility.getPublicClass emptyReg implC5 = Except.ok (fcC5, stC5) ∧
    lookupPropStr implC5.staticProps "version" =
      some { configurable := true, value := some (DescValue.jsval (JSVal.num 1)) } ∧
    skipStaticKey "version" = false ∧
    (({ configurable := true,
        value := some (DescValue.jsval (JSVal.num 1)) } : PropDescriptor).writable = false ∧
     List.lookup "version" fcC5.staticProps =
       some { configurable := true, enumerable := false, writable := false,
              get := some (SynthGet.fromValue (some (DescValue.jsval (JSVal.num 1)))) } ∧
     Utility.invokeStaticGet stC5 fcC5 "version" =
       some (Utility.filterPrivateInstance stC5
         (descJS (some (DescValue.jsval (JSVal.num 1)))))) := by
  refine ⟨rfl, rfl, rfl, rfl, ?_⟩
  have h := ((claim_C5_amended.1 emptyReg implC5 fcC5 stC5 "version"
    { configurable := true, value := some (DescValue.jsval (JSVal.num 1)) }
    rfl rfl rfl rfl rfl).1 rfl rfl)
  exact ⟨h.1, h.2.1, h.2.2 stC5⟩

/-- The behavior claim C7 asserts for type-level callables, written from the
spec's words rather than the source: arguments are rewritten public→private,
the original callable is invoked bound to **the façade class itself** as
receiver, and the result is rewritten private→public.  (Named for comparison
against the compiled behavior, which binds the implementation class.) -/
def claimedStaticMethod (st : Registry) (fc : Facade)
    (f : JSVal → List JSVal → JSVal) (publicArgs : List JSVal) : JSVal :=
  Utility.filterPrivateInstance st
    (f (JSVal.classRef fc.id)
      (argListOf (Utility.filterPublicInstance st (JSVal.arr publicArgs))))

/-- A static method returning its own receiver (`return this`). -/
def fWho : JSVal → List JSVal → JSVal := fun recv _ => recv

/-- An implementation class with the single exposed static method
`whoAmI = fWho`. -/
def implC7 : ImplClass :=
  ⟨0, [(PropKey.str "whoAmI", { value := some (DescValue.func fWho) })], []⟩

/-- The façade compiled from `implC7`. -/
def fcC7 : Facade :=
  ⟨1, 0, [("whoAmI", { value := some (SynthMethod.fromFunc fWho) })], []⟩

/-- The registry after compiling `implC7` from `emptyReg`. -/
def stC7 : Registry :=
  { publicClassesMap := [(1, 0)], privateClassesMap := [(0, fcC7)],
    publicInstancesMap := [], privateInstancesMap := [], nextId := 2 }

/-- **C7, counterexample** — The claim says a synthesized type-level method
invokes the original callable bound to the façade class itself.  It is false:
the compiled body applies the callable with the **implementation class** as
receiver (`privateProperty.value.apply(PrivateClass, ...)`).  Calling the
façade's `whoAmI` (which returns `this`) yields the implementation class
(id 0), not the façade class (id 1) the claim predicts. -/
theorem claim_C7_counterexample :
    Utility.getPublicClass emptyReg implC7 = Except.ok (fcC7, stC7) ∧
    Utility.invokeStaticMethod stC7 fcC7 "whoAmI" [] = some (JSVal.classRef 0) ∧
    claimedStaticMethod stC7 fcC7 fWho [] = JSVal.classRef 1 ∧
    Utility.invokeStaticMethod stC7 fcC7 "whoAmI" [] ≠
      some (claimedStaticMethod stC7 fcC7 fWho []) := by
  refine ⟨rfl, rfl, rfl, ?_⟩
  intro h
  rw [show Utility.invokeStaticMethod stC7 fcC7 "whoAmI" [] = some (JSVal.classRef 0)
        from rfl,
      show claimedStaticMethod stC7 fcC7 fWho [] = JSVal.classRef 1 from rfl] at h
  simp at h

/-- **C7, amended** — For every exposed callable member of a compiled
implementation type, in both variants: the synthesized method rewrites the
argument array public→private, invokes the original callable bound to the
**implementation class** as receiver for type-level members (to the
receiver's bound implementation instance for instance-level members, as the
claim already said), and rewrites the result private→public. -/
theorem claim_C7_amended :
    (∀ (st : Registry) (impl : ImplClass) (fc : Facade) (st' : Registry)
       (k : String) (d : PropDescriptor) (f : JSVal → List JSVal → JSVal)
       (args : List JSVal),
      List.lookup impl.id st.privateClassesMap = none →
      Utility.getPublicClass st impl = Except.ok (fc, st') →
      d.get = none → d.set = none → d.value = some (DescValue.func f) →
      (lookupPropStr impl.staticProps k = some d → skipStaticKey k = false →
        ∀ st2, Utility.invokeStaticMethod st2 fc k args =
          some (Utility.filterPrivateInstance st2
            (f (JSVal.classRef impl.id)
              (argListOf (Utility.filterPublicInstance st2 (JSVal.arr args)))))) ∧
      (lookupPropStr impl.protoProps k = some d → skipProtoKey k = false →
        ∀ (st2 : Registry) (thisV priv : JSVal), boundPrivate st2 thisV = some priv →
          Utility.invokeProtoMethod st2 fc k thisV args =
            some (Utility.filterPrivateInstance st2
              (f priv
                (argListOf (Utility.filterPublicInstance st2 (JSVal.arr args))))))) ∧
    (∀ (st : Registry) (impl : ImplClass) (fc : Facade) (st' : Registry)
       (k : String) (d : PropDescriptor) (f : JSVal → List JSVal → JSVal)
       (args : List JSVal),
      List.lookup impl.id st.privateClassesMap = none →
      Builder.getPublicClass st impl = Except.ok (fc, st') →
      d.get = none → d.set = none → d.value = some (DescValue.func f) →
      (lookupPropStr impl.staticProps k = some d → skipStaticKey k = false →
        ∀ st2, Builder.invokeStaticMethod st2 fc k args =
          some (Builder.filterPrivate st2
            (f (JSVal.classRef impl.id)
              (argListOf (Builder.filterPublic st2 (JSVal.arr args)))))) ∧
      (lookupPropStr impl.protoProps k = some d → skipProtoKey k = false →
        ∀ (st2 : Registry) (thisV priv : JSVal), boundPrivate st2 thisV = some priv →
          Builder.invokeProtoMethod st2 fc k thisV args =
            some (Builder.filterPrivate st2
              (f priv
                (argListOf (Builder.filterPublic st2 (JSVal.arr args))))))) := by
  constructor
  · intro st impl fc st' k d f args hnc hok hg hs hv
    obtain ⟨_, himplId, hts, htp⟩ := getPublicClass_ok_shape st impl fc st' hnc hok
    have hsd := synthDesc_func d f hg hs hv
    constructor
    · intro hd hk
      obtain ⟨hlk, _⟩ :=
        transferProps_ok_lookup skipStaticKey impl.staticProps fc.staticProps hts k d hd hk
      rw [hsd] at hlk
      intro st2
      unfold Utility.invokeStaticMethod
      rw [hlk, himplId]
      rfl
    · intro hd hk
      obtain ⟨hlk, _⟩ :=
        transferProps_ok_lookup skipProtoKey impl.protoProps fc.protoProps htp k d hd hk
      rw [hsd] at hlk
      intro st2 thisV priv hb
      have hinv : Utility.invokeProtoMethod st2 fc k thisV args =
          some (Utility.runProtoMethod st2 (SynthMethod.fromFunc f) thisV args) := by
        unfold Utility.invokeProtoMethod
        rw [hlk]
        rfl
      rw [hinv]
      unfold Utility.runProtoMethod
      rw [hb]
  · intro st impl fc st' k d f args hnc hok hg hs hv
    rw [builder_getPublicClass_eq] at hok
    obtain ⟨_, himplId, hts, htp⟩ := getPublicClass_ok_shape st impl fc st' hnc hok
    have hsd := synthDesc_func d f hg hs hv
    constructor
    · intro hd hk
      obtain ⟨hlk, _⟩ :=
        transferProps_ok_lookup skipStaticKey impl.staticProps fc.staticProps hts k d hd hk
      rw [hsd] at hlk
      intro st2
      unfold Builder.invokeStaticMethod
      rw [hlk, himplId]
      rfl
    · intro hd hk
      obtain ⟨hlk, _⟩ :=
        transferProps_ok_lookup skipProtoKey impl.protoProps fc.protoProps htp k d hd hk
      rw [hsd] at hlk
      intro st2 thisV priv hb
      have hinv : Builder.invokeProtoMethod st2 fc k thisV args =
          some (Builder.runProtoMethod st2 (SynthMethod.fromFunc f) thisV args) := by
        unfold Builder.invokeProtoMethod
        rw [hlk]
        rfl
      rw [hinv]
      unfold Builder.runProtoMethod
      rw [hb]

/-- Witness for the amended C7, on the compile of `implC7`: the façade's
`whoAmI` returns the implementation class (translated through the registry,
where it has no registered instance counterpart in `Utility.js`'s filters). -/
theorem claim_C7_amended_witness :
    List.lookup implC7.id emptyReg.privateClassesMap = none ∧
    Utility.getPublicClass emptyReg implC7 = Except.ok (fcC7, stC7) ∧
    lookupPropStr implC7.staticProps "whoAmI" =
      some { value := some (DescValue.func fWho) } ∧
    skipStaticKey "whoAmI" = false ∧
    Utility.invokeStaticMethod stC7 fcC7 "whoAmI" [] =
      some (Utility.filterPrivateInstance stC7
        (fWho (JSVal.classRef implC7.id)
          (argListOf (Utility.filterPublicInstance stC7 (JSVal.arr []))))) :=
  ⟨rfl, rfl, rfl, rfl,
   ((claim_C7_amended.1 emptyReg implC7 fcC7 stC7 "whoAmI"
      { value := some (DescValue.func fWho) } fWho []
      rfl rfl rfl rfl rfl).1 rfl rfl) stC7⟩

/-- A registry holding one registered instance pair: private instance id 5
(of class 0) bound to façade instance id 8 (of class 1). -/
def stC6 : Registry :=
  { publicClassesMap := [], privateClassesMap := [],
    publicInstancesMap := [(8, JSVal.objRef 5 0)],
    privateInstancesMap := [(5, JSVal.objRef 8 1)], nextId := 9 }

/-- **C6** — The claim (and the code's own promise branch) says a pending
asynchronous result is translated into a new pending result yielding the
translated resolution value.  The code never does this: every promise branch
tests `typeof obj === 'promise'`, but `typeof` of a promise is `"object"`
(never `"promise"`), so the branch is unreachable and a promise passes
through the translators untranslated — even when its resolution value is a
registered instance that the same translator would rewrite (shown by the
bare-value conjuncts). -/
theorem claim_C6_promise_branch_dead :
    jsTypeof (JSVal.promiseVal (JSVal.objRef 5 0)) = "object" ∧
    jsTypeof (JSVal.promiseVal (JSVal.objRef 5 0)) ≠ "promise" ∧
    Utility.filterPrivateInstance stC6 (JSVal.objRef 5 0) = JSVal.objRef 8 1 ∧
    Utility.filterPrivateInstance stC6 (JSVal.promiseVal (JSVal.objRef 5 0)) =
      JSVal.promiseVal (JSVal.objRef 5 0) ∧
    Builder.filterPrivate stC6 (JSVal.promiseVal (JSVal.objRef 5 0)) =
      JSVal.promiseVal (JSVal.objRef 5 0) ∧
    Utility.filterPublicInstance stC6 (JSVal.objRef 8 1) = JSVal.objRef 5 0 ∧
    Utility.filterPublicInstance stC6 (JSVal.promiseVal (JSVal.objRef 8 1)) =
      JSVal.promiseVal (JSVal.objRef 8 1) ∧
    Builder.filterPublic stC6 (JSVal.promiseVal (JSVal.objRef 8 1)) =
      JSVal.promiseVal (JSVal.objRef 8 1) := by
  refine ⟨rfl, ?_, rfl, rfl, rfl, rfl, rfl, rfl⟩
  intro h
  exact absurd h (by decide)

/-- An implementation class with no own properties, for the C4 example. -/
def implC4 : ImplClass := ⟨0, [], []⟩

/-- The façade compiled from `implC4`. -/
def fcC4 : Facade := ⟨1, 0, [], []⟩

/-- The registry after compiling `implC4` from `emptyReg` in a builder. -/
def stC4 : Registry :=
  { publicClassesMap := [(1, 0)], privateClassesMap := [(0, fcC4)],
    publicInstancesMap := [], privateInstancesMap := [], nextId := 2 }

/-- The registry after the process-wide `_get` wraps the unregistered private
instance id 7 on demand. -/
def stC4' : Registry :=
  { publicClassesMap := [(1, 0)], privateClassesMap := [(0, fcC4)],
    publicInstancesMap := [(2, JSVal.objRef 7 0)],
    privateInstancesMap := [(7, JSVal.objRef 2 1)], nextId := 3 }

/-- **C4** — The claim says that in both scope variants the static lookup
`_get`, given an unregistered value that is a genuine instance of the wrapped
implementation type, wraps it on demand.  The builder variant cannot: its
fallback branch reads the identifier `publicClassesMap`, which is not defined
anywhere in `PublicClassBuilder.js`'s module scope (the builder's map is
`_private.publicClassesMap`), so the branch raises a `ReferenceError`
instead of wrapping — while the process-wide variant at the same input wraps
on demand and registers the pair, and the builder's registered path still
returns the registered façade instance. -/
theorem claim_C4_builder_get_reference_error :
    Builder.getPublicClass emptyReg implC4 = Except.ok (fcC4, stC4) ∧
    List.lookup 7 stC4.privateInstancesMap = none ∧
    isInstanceOf (JSVal.objRef 7 0) implC4.id = true ∧
    Builder.staticGet stC4 (JSVal.objRef 7 0) = Except.error JSError.referenceError ∧
    Utility.staticGet stC4 implC4 fcC4 (JSVal.objRef 7 0) =
      Except.ok (JSVal.objRef 2 1, stC4') ∧
    Builder.staticGet stC4' (JSVal.objRef 7 0) = Except.ok (JSVal.objRef 2 1, stC4') :=
  ⟨rfl, rfl, rfl, rfl, rfl, rfl⟩
